import Mathlib

/- Shallow embedding of the KMRL document-extraction core
   (src/extractors/extractors.py).

   External libraries (pdfplumber, pytesseract, pdf2image, python-docx,
   ezdxf, pandas, PIL) are modelled as environment data: each library
   call site in the Python source becomes a field holding the outcome
   the library would produce there, with `Except String` standing for a
   possibly raised exception.  Character decoding (utf-8, latin-1,
   cp1252) is modelled at byte level, faithful to the Python codecs,
   because two claims depend on actual decoder semantics. -/

abbrev Byte := Fin 256

/-- One byte of a utf-8 continuation sequence (10xxxxxx). -/
def utf8Cont (b : Byte) : Bool := decide (0x80 ≤ b.val) && decide (b.val ≤ 0xBF)

/-- Strict utf-8 decoding as Python performs it: rejects overlong forms,
    surrogates and code points above 0x10FFFF; `none` models
    `UnicodeDecodeError`. -/
def utf8Decode : List Byte → Option (List Char)
  | [] => some []
  | b :: bs =>
    if b.val < 0x80 then
      (utf8Decode bs).map (fun cs => Char.ofNat b.val :: cs)
    else if 0xC2 ≤ b.val ∧ b.val ≤ 0xDF then
      match bs with
      | c1 :: bs2 =>
        if utf8Cont c1 then
          (utf8Decode bs2).map (fun cs =>
            Char.ofNat ((b.val - 0xC0) * 0x40 + (c1.val - 0x80)) :: cs)
        else none
      | [] => none
    else if 0xE0 ≤ b.val ∧ b.val ≤ 0xEF then
      match bs with
      | c1 :: c2 :: bs3 =>
        if utf8Cont c1 && utf8Cont c2
            && (decide (b.val ≠ 0xE0) || decide (0xA0 ≤ c1.val))
            && (decide (b.val ≠ 0xED) || decide (c1.val ≤ 0x9F)) then
          (utf8Decode bs3).map (fun cs =>
            Char.ofNat ((b.val - 0xE0) * 0x1000 + (c1.val - 0x80) * 0x40
              + (c2.val - 0x80)) :: cs)
        else none
      | _ => none
    else if 0xF0 ≤ b.val ∧ b.val ≤ 0xF4 then
      match bs with
      | c1 :: c2 :: c3 :: bs4 =>
        if utf8Cont c1 && utf8Cont c2 && utf8Cont c3
            && (decide (b.val ≠ 0xF0) || decide (0x90 ≤ c1.val))
            && (decide (b.val ≠ 0xF4) || decide (c1.val ≤ 0x8F)) then
          (utf8Decode bs4).map (fun cs =>
            Char.ofNat ((b.val - 0xF0) * 0x40000 + (c1.val - 0x80) * 0x1000
              + (c2.val - 0x80) * 0x40 + (c3.val - 0x80)) :: cs)
        else none
      | _ => none
    else none

/-- Latin-1 (iso-8859-1) decoding: total, every byte maps to the code
    point of the same value.  This totality is what makes the cp1252
    entry of the candidate list unreachable in the source. -/
def latin1Decode (bs : List Byte) : List Char := bs.map (fun b => Char.ofNat b.val)

/-- Windows-1252 decoding of a single byte: bytes 0x80..0x9F go through
    the cp1252 table, five of them are undefined (`None` models
    `UnicodeDecodeError`). -/
def cp1252Char (b : Byte) : Option Char :=
  if b.val < 0x80 ∨ 0xA0 ≤ b.val then some (Char.ofNat b.val)
  else match b.val with
    | 0x80 => some (Char.ofNat 0x20AC)
    | 0x82 => some (Char.ofNat 0x201A)
    | 0x83 => some (Char.ofNat 0x0192)
    | 0x84 => some (Char.ofNat 0x201E)
    | 0x85 => some (Char.ofNat 0x2026)
    | 0x86 => some (Char.ofNat 0x2020)
    | 0x87 => some (Char.ofNat 0x2021)
    | 0x88 => some (Char.ofNat 0x02C6)
    | 0x89 => some (Char.ofNat 0x2030)
    | 0x8A => some (Char.ofNat 0x0160)
    | 0x8B => some (Char.ofNat 0x2039)
    | 0x8C => some (Char.ofNat 0x0152)
    | 0x8E => some (Char.ofNat 0x017D)
    | 0x91 => some (Char.ofNat 0x2018)
    | 0x92 => some (Char.ofNat 0x2019)
    | 0x93 => some (Char.ofNat 0x201C)
    | 0x94 => some (Char.ofNat 0x201D)
    | 0x95 => some (Char.ofNat 0x2022)
    | 0x96 => some (Char.ofNat 0x2013)
    | 0x97 => some (Char.ofNat 0x2014)
    | 0x98 => some (Char.ofNat 0x02DC)
    | 0x99 => some (Char.ofNat 0x2122)
    | 0x9A => some (Char.ofNat 0x0161)
    | 0x9B => some (Char.ofNat 0x203A)
    | 0x9C => some (Char.ofNat 0x0153)
    | 0x9E => some (Char.ofNat 0x017E)
    | 0x9F => some (Char.ofNat 0x0178)
    | _ => none

/-- Windows-1252 decoding of a byte string. -/
def cp1252Decode (bs : List Byte) : Option (List Char) := bs.mapM cp1252Char

/-- Python universal-newline translation performed by `open` in text
    mode: CRLF and lone CR both become LF. -/
def univNewlines : List Char → List Char
  | [] => []
  | '\r' :: '\n' :: rest => '\n' :: univNewlines rest
  | '\r' :: rest => '\n' :: univNewlines rest
  | c :: rest => c :: univNewlines rest

/-- Decoding a byte string under one of the encoding names the source
    iterates over; `none` models `UnicodeDecodeError`. -/
def decodeWith (enc : String) (bs : List Byte) : Option String :=
  if enc = "utf-8" then (utf8Decode bs).map String.mk
  else if enc = "latin-1" then some (String.mk (latin1Decode bs))
  else if enc = "cp1252" then (cp1252Decode bs).map String.mk
  else none

/-- What `open(filepath, 'r', encoding=enc).read()` yields: decode, then
    universal-newline translation. -/
def pyReadText (enc : String) (bs : List Byte) : Option String :=
  (decodeWith enc bs).map (fun s => String.mk (univNewlines s.data))

/-- Python `str.split(sep)` for a one-character separator, on the
    character list: every occurrence of the separator starts a new
    segment, so a trailing separator yields a trailing empty segment. -/
def splitCharList (c : Char) : List Char → List (List Char)
  | [] => [[]]
  | x :: rest =>
    if x = c then [] :: splitCharList c rest
    else match splitCharList c rest with
      | [] => [[x]]
      | g :: gs => (x :: g) :: gs

/-- Python `text.split(sep)` for a one-character separator. -/
def pySplit (c : Char) (s : String) : List String :=
  (splitCharList c s.data).map String.mk

/-- The whitespace characters Python `str.strip()` removes (ASCII
    range). -/
def pyIsSpace (c : Char) : Bool :=
  c = ' ' || c = '\t' || c = '\n' || c = '\r' || c = '\x0b' || c = '\x0c'

/-- Python `str.strip()`: removes leading and trailing whitespace. -/
def pyStrip (s : String) : String :=
  String.mk (((s.data.dropWhile pyIsSpace).reverse.dropWhile pyIsSpace).reverse)

/-- The fixed candidate list `['utf-8', 'latin-1', 'cp1252']` shared by
    CSVExtractor.extract and TXTExtractor.extract. -/
def encodingCandidates : List String := ["utf-8", "latin-1", "cp1252"]

/-- Environment of one TXTExtractor.extract call: whether `open` itself
    raises (file missing, permissions), and the raw bytes of the file. -/
structure TXTEnv where
  openError : Option String
  bytes : List Byte

structure TXTMeta where
  encoding : String
  lines : Nat
  error : Option String
deriving DecidableEq

structure TXTResult where
  text : String
  metadata : TXTMeta
deriving DecidableEq

/-- The encoding loop of TXTExtractor.extract: first candidate whose
    read succeeds wins; a `UnicodeDecodeError` means `continue`. -/
def txtTryEncodings (bs : List Byte) : List String → Option (String × String)
  | [] => none
  | enc :: rest =>
    match pyReadText enc bs with
    | some s => some (enc, s)
    | none => txtTryEncodings bs rest

/-- A parsed pandas DataFrame, reduced to what the source reads from it:
    `df.columns`, and the rows as lists of rendered cell strings. -/
structure DataFrame where
  columns : List String
  rows : List (List String)
deriving DecidableEq

/-- `df.head(n)`: the DataFrame restricted to its first `n` rows. -/
def dfHead (df : DataFrame) (n : Nat) : DataFrame :=
  ⟨df.columns, df.rows.take n⟩

/-- Right-justified padding to a column width, as pandas renders cells. -/
def padLeft (w : Nat) (s : String) : String :=
  String.mk (List.replicate (w - s.length) ' ') ++ s

/-- Width of column `j`: the widest of the column name and the cells. -/
def colWidth (df : DataFrame) (j : Nat) (name : String) : Nat :=
  df.rows.foldl (fun w r => max w ((r.getD j "").length)) name.length

/-- Modelled from the external pandas library:
    `df.to_string(index=False)` — header line of right-justified column
    names, then one line per row, columns separated by two spaces. -/
def dfToString (df : DataFrame) : String :=
  let widths := df.columns.mapIdx (fun j name => colWidth df j name)
  let header := String.intercalate "  "
    ((df.columns.zip widths).map (fun x => padLeft x.2 x.1))
  let rowLines := df.rows.map (fun r =>
    String.intercalate "  "
      (((List.range df.columns.length).zip widths).map
        (fun x => padLeft x.2 (r.getD x.1 ""))))
  String.intercalate "\n" (header :: rowLines)

/-- Environment of one CSVExtractor.extract call: whether opening the
    file raises before any decode attempt, the raw bytes, and the pandas
    CSV parser applied to the decoded text (an external collaborator,
    so an arbitrary function; its `Except.error` models any exception
    other than `UnicodeDecodeError`). -/
structure CSVEnv where
  openError : Option String
  bytes : List Byte
  parse : String → Except String DataFrame

structure CSVMeta where
  rows : Nat
  columns : Nat
  encoding : String
  error : Option String
deriving DecidableEq

structure CSVResult where
  text : String
  metadata : CSVMeta
deriving DecidableEq

/-- The encoding loop of CSVExtractor.extract: `pd.read_csv` with each
    candidate in turn; a `UnicodeDecodeError` (decode failure) means
    `continue`, any other exception propagates out of the loop, and the
    for-else raises a ValueError when the list is exhausted. -/
def csvTryEncodings (bs : List Byte) (parse : String → Except String DataFrame) :
    List String → Except String (String × DataFrame)
  | [] => .error "Could not decode CSV with any common encoding"
  | enc :: rest =>
    match decodeWith enc bs with
    | none => csvTryEncodings bs parse rest
    | some s =>
      match parse s with
      | .error e => .error e
      | .ok df => .ok (enc, df)

/-- CSVExtractor.extract.  The whole body is wrapped in try/except, so
    the function is total: every failure lands in `metadata.error`. -/
def CSVExtractor.extract (env : CSVEnv) : CSVResult :=
  match env.openError with
  | some e => ⟨"", ⟨0, 0, "utf-8", some e⟩⟩
  | none =>
    match csvTryEncodings env.bytes env.parse encodingCandidates with
    | .error e => ⟨"", ⟨0, 0, "utf-8", some e⟩⟩
    | .ok (enc, df) =>
      let nRows := df.rows.length
      let nCols := df.columns.length
      let text_parts : List String :=
        [s!"CSV Table with {nRows} rows and {nCols} columns:",
         "Columns: " ++ String.intercalate ", " df.columns,
         "Data preview:",
         dfToString (dfHead df 10)]
      ⟨String.intercalate "\n\n" text_parts, ⟨nRows, nCols, enc, none⟩⟩

/-- TXTExtractor.extract.  The whole body is wrapped in try/except, so
    the function is total: every failure lands in `metadata.error`. -/
def TXTExtractor.extract (env : TXTEnv) : TXTResult :=
  match env.openError with
  | some e => ⟨"", ⟨"utf-8", 0, some e⟩⟩
  | none =>
    match txtTryEncodings env.bytes encodingCandidates with
    | none => ⟨"", ⟨"utf-8", 0, some "Could not decode text file with any common encoding"⟩⟩
    | some (enc, text) => ⟨text, ⟨enc, (pySplit '\n' text).length, none⟩⟩

/-- A PIL image, reduced to what the source reads from it. -/
structure PILImage where
  size : Nat × Nat
deriving DecidableEq

/-- Environment of one ImageExtractor.extract call: the outcome of
    `Image.open` and of `pytesseract.image_to_string` on that image. -/
structure ImageEnv where
  openImage : Except String PILImage
  ocr : Except String String

structure ImageMeta where
  ocr_method : String
  image_size : Option (Nat × Nat)
  error : Option String
deriving DecidableEq

structure ImageResult where
  text : String
  metadata : ImageMeta
deriving DecidableEq

/-- ImageExtractor.extract.  `image_size` is written as soon as the
    image opens, before OCR runs; the try/except makes the call total. -/
def ImageExtractor.extract (env : ImageEnv) : ImageResult :=
  match env.openImage with
  | .error e => ⟨"", ⟨"tesseract", none, some e⟩⟩
  | .ok img =>
    match env.ocr with
    | .error e => ⟨"", ⟨"tesseract", some img.size, some e⟩⟩
    | .ok t => ⟨t, ⟨"tesseract", some img.size, none⟩⟩

/-- A python-docx Document, reduced to what the source reads: paragraph
    texts in order, and tables as rows of cell texts. -/
structure DOCXDoc where
  paragraphs : List String
  tables : List (List (List String))
deriving DecidableEq

structure DOCXMeta where
  paragraphs : Nat
  tables : Nat
  error : Option String
deriving DecidableEq

structure DOCXResult where
  text : String
  metadata : DOCXMeta
deriving DecidableEq

/-- One DOCX table serialized as the source does: `TABLE:` marker, then
    one line per row with cells joined by a pipe separator. -/
def docxTable (t : List (List String)) : String :=
  "TABLE:\n" ++ String.intercalate "\n" (t.map (fun row => String.intercalate " | " row))

/-- DOCXExtractor.extract.  `docx.Document` is the failure point; the
    try/except makes the call total. -/
def DOCXExtractor.extract (openDoc : Except String DOCXDoc) : DOCXResult :=
  match openDoc with
  | .error e => ⟨"", ⟨0, 0, some e⟩⟩
  | .ok doc =>
    let kept := doc.paragraphs.filter (fun p => !(pyStrip p).isEmpty)
    let all_text := kept ++ doc.tables.map docxTable
    ⟨String.intercalate "\n\n" all_text, ⟨kept.length, doc.tables.length, none⟩⟩

/-- One ezdxf model-space entity, reduced to what the source reads:
    its `dxftype()`, its `dxf.text` attribute when present (`none`
    models a missing attribute, i.e. `hasattr` false), and `str(entity)`
    for the fallback rendering. -/
structure DXFEntity where
  dxftype : String
  text : Option String
  strRepr : String
deriving DecidableEq

/-- An ezdxf drawing, reduced to what the source reads: layer names and
    the model-space entity list. -/
structure DXFDoc where
  layers : List String
  modelspace : List DXFEntity
deriving DecidableEq

/-- Environment of one CADExtractor.extract call: the file path (the
    source branches on its extension) and the outcome of
    `ezdxf.readfile`. -/
structure CADEnv where
  filepath : String
  readfile : Except String DXFDoc

structure CADMeta where
  entities : Nat
  text_entities : Nat
  layers : List String
  error : Option String
deriving DecidableEq

structure CADResult where
  text : String
  metadata : CADMeta
deriving DecidableEq

/-- Python `str.lower()` on one character (ASCII range; file-path
    characters outside it are unaffected by the suffix test below). -/
def pyLowerChar (c : Char) : Char :=
  if 'A' ≤ c ∧ c ≤ 'Z' then Char.ofNat (c.toNat + 32) else c

/-- Python `str.lower()`. -/
def pyLower (s : String) : String := String.mk (s.data.map pyLowerChar)

/-- Python `str.endswith(suffix)`. -/
def pyEndsWith (s suffix : String) : Bool := suffix.data.isSuffixOf s.data

/-- Python `os.path.basename` on a POSIX path. -/
def basename (p : String) : String := (pySplit '/' p).getLastD ""

/-- Body of the entity loop of CADExtractor.extract: accumulates the
    text fragments, the total entity count and the text-entity count. -/
def cadStep (st : List String × Nat × Nat) (e : DXFEntity) : List String × Nat × Nat :=
  let texts := st.1
  let ents := st.2.1 + 1
  let tents := st.2.2
  if e.dxftype = "TEXT" ∨ e.dxftype = "MTEXT" then
    (texts ++ [e.text.getD e.strRepr], ents, tents + 1)
  else if e.dxftype = "DIMENSION" then
    match e.text with
    | some t => (texts ++ [t], ents, tents + 1)
    | none => (texts, ents, tents)
  else (texts, ents, tents)

/-- CADExtractor.extract.  Parsing is attempted only when the lowercased
    path ends in `.dxf`; on an `ezdxf.readfile` failure the except
    branch substitutes the placeholder text and records the error. -/
def CADExtractor.extract (env : CADEnv) : CADResult :=
  if pyEndsWith (pyLower env.filepath) ".dxf" then
    match env.readfile with
    | .error e =>
      ⟨s!"CAD file detected: " ++ basename env.filepath, ⟨0, 0, [], some e⟩⟩
    | .ok doc =>
      let st := doc.modelspace.foldl cadStep ([], 0, 0)
      ⟨String.intercalate "\n" st.1, ⟨st.2.1, st.2.2, doc.layers, none⟩⟩
  else ⟨"", ⟨0, 0, [], none⟩⟩

/-- One pdfplumber page as the source consumes it: the outcome of
    `page.extract_text()` (which may return None), the outcome of
    `convert_from_path(filepath, first_page=i+1, last_page=i+1)` paired
    with the per-image `pytesseract.image_to_string` outcomes, and the
    outcome of `page.extract_tables()` (cells may be None). -/
structure PDFPage where
  extract_text : Except String (Option String)
  convert_from_path : Except String (List (Except String String))
  extract_tables : Except String (List (List (List (Option String))))

/-- A pdfplumber document, reduced to its page list. -/
structure PDFDoc where
  pages : List PDFPage

/-- Environment of one PDFExtractor.extract call: the outcome of
    `pdfplumber.open`. -/
structure PDFEnv where
  openDoc : Except String PDFDoc

structure PDFMeta where
  pages : Nat
  extraction_method : List String
  tables_found : Nat
  error : Option String
deriving DecidableEq

structure PDFResult where
  text : String
  metadata : PDFMeta
deriving DecidableEq

/-- The Python result dict plus, as a verification trace, the list of
    page numbers the source rasterized via `convert_from_path` (the OCR
    fallback path); the trace is not part of the Python return value. -/
structure PDFRun where
  result : PDFResult
  rasterized : List Nat
deriving DecidableEq

/-- The acceptance test for direct page text:
    `if text and len(text.strip()) > 30`. -/
def directAccept : Option String → Bool
  | none => false
  | some s => !s.isEmpty && decide ((pyStrip s).length > 30)

/-- The OCR texts collected from the rasterized images of one page: the
    inner for-loop appends each image text until `image_to_string`
    raises, at which point the surrounding try swallows the exception. -/
def ocrTexts : List (Except String String) → List String
  | [] => []
  | .ok t :: rest => t :: ocrTexts rest
  | .error _ :: _ => []

/-- The cell filter of the table serializer:
    `str(cell) for cell in row if cell` keeps truthy cells only. -/
def cellKeep : Option String → Bool
  | none => false
  | some s => !s.isEmpty

/-- One pdfplumber table serialized as the source does: rows joined by
    newlines, truthy cells joined by a pipe separator. -/
def serTable (tb : List (List (Option String))) : String :=
  String.intercalate "\n"
    (tb.map (fun row =>
      String.intercalate " | " ((row.filter cellKeep).map (fun c => c.getD ""))))

/-- The mutable state of the page loop of PDFExtractor.extract:
    `all_text`, the `extraction_method` list (mutated in place inside
    the result dict), the local `tables_count`, the rasterization trace,
    and the pending exception when `page.extract_text()` raised. -/
structure PdfSt where
  all_text : List String
  methods : List String
  tables : Nat
  ocrCalls : List Nat
  error : Option String
deriving DecidableEq

/-- One iteration of the page loop of PDFExtractor.extract, for the page
    numbered `n` (1-based).  A raise from `page.extract_text()` aborts
    the iteration; OCR failures and table failures are swallowed by
    their narrow try blocks. -/
def pdfStep (n : Nat) (p : PDFPage) (st : PdfSt) : PdfSt :=
  match p.extract_text with
  | .error e => { st with error := some e }
  | .ok t =>
    let st1 :=
      if directAccept t then
        { st with all_text := st.all_text ++ [t.getD ""],
                  methods := st.methods ++ [s!"page_{n}_direct"] }
      else
        let st0 := { st with ocrCalls := st.ocrCalls ++ [n] }
        match p.convert_from_path with
        | .error _ => st0
        | .ok imgs =>
          let ts := ocrTexts imgs
          { st0 with all_text := st0.all_text ++ ts,
                     methods := st0.methods ++ ts.map (fun _ => s!"page_{n}_ocr") }
    match p.extract_tables with
    | .error _ => st1
    | .ok tbls =>
      if tbls.isEmpty then st1
      else { st1 with tables := st1.tables + tbls.length,
                      all_text := st1.all_text ++ tbls.map (fun tb => "TABLE:\n" ++ serTable tb) }

/-- The page loop of PDFExtractor.extract; an uncaught exception inside
    an iteration stops the loop. -/
def pdfLoop : Nat → List PDFPage → PdfSt → PdfSt
  | _, [], st => st
  | i, p :: ps, st =>
    let st1 := pdfStep (i + 1) p st
    match st1.error with
    | some _ => st1
    | none => pdfLoop (i + 1) ps st1

/-- PDFExtractor.extract.  `metadata.pages` is written before the loop;
    `text` and `tables_found` are written only after the loop completes,
    so they keep their initial values when an exception aborts it. -/
def PDFExtractor.extract (env : PDFEnv) : PDFRun :=
  match env.openDoc with
  | .error e => ⟨⟨"", ⟨0, [], 0, some e⟩⟩, []⟩
  | .ok doc =>
    let st := pdfLoop 0 doc.pages ⟨[], [], 0, [], none⟩
    match st.error with
    | some e => ⟨⟨"", ⟨doc.pages.length, st.methods, 0, some e⟩⟩, st.ocrCalls⟩
    | none =>
      ⟨⟨String.intercalate "\n\n" st.all_text,
        ⟨doc.pages.length, st.methods, st.tables, none⟩⟩, st.ocrCalls⟩

/-- The extractor classes the factory can instantiate. -/
inductive ExtractorClass
  | PDFExtractor
  | ImageExtractor
  | DOCXExtractor
  | CADExtractor
  | CSVExtractor
  | TXTExtractor
deriving DecidableEq

/-- The `ExtractorFactory.extractors` class attribute: the fixed tag to
    class mapping, including the DOC, DWG and XLSX aliases. -/
def ExtractorFactory.extractors : List (String × ExtractorClass) :=
  [("PDF", .PDFExtractor),
   ("IMAGE", .ImageExtractor),
   ("DOCX", .DOCXExtractor),
   ("DOC", .DOCXExtractor),
   ("DXF", .CADExtractor),
   ("DWG", .CADExtractor),
   ("CSV", .CSVExtractor),
   ("TXT", .TXTExtractor),
   ("XLSX", .CSVExtractor)]

/-- ExtractorFactory.get_extractor: dictionary lookup, raising ValueError
    for an unknown tag — the one failure the core lets escape. -/
def ExtractorFactory.get_extractor (file_type : String) : Except String ExtractorClass :=
  match ExtractorFactory.extractors.lookup file_type with
  | some c => .ok c
  | none => .error s!"No extractor available for file type: {file_type}"

/-- Whether `page.extract_text()` returns (rather than raises). -/
def extractTextOk (p : PDFPage) : Bool :=
  match p.extract_text with
  | .ok _ => true
  | .error _ => false

/-- Closed form of the text fragments one completed loop iteration
    appends for a page (direct or OCR text, then serialized tables);
    proven equal to the effect of `pdfStep` below. -/
def pageTextOut (p : PDFPage) : List String :=
  match p.extract_text with
  | .error _ => []
  | .ok t =>
    (if directAccept t then [t.getD ""]
     else match p.convert_from_path with
       | .error _ => []
       | .ok imgs => ocrTexts imgs) ++
    (match p.extract_tables with
     | .error _ => []
     | .ok tbls => if tbls.isEmpty then [] else tbls.map (fun tb => "TABLE:\n" ++ serTable tb))

/-- Closed form of the `extraction_method` tags one completed loop
    iteration appends for the page numbered `n`: exactly one direct tag
    when `directAccept` holds, otherwise one OCR tag per OCR-ed image
    and never a direct tag. -/
def pageMethodTags (n : Nat) (p : PDFPage) : List String :=
  match p.extract_text with
  | .error _ => []
  | .ok t =>
    if directAccept t then [s!"page_{n}_direct"]
    else match p.convert_from_path with
      | .error _ => []
      | .ok imgs => (ocrTexts imgs).map (fun _ => s!"page_{n}_ocr")

/-- Closed form of the rasterization trace of one completed loop
    iteration: the page is rasterized exactly when `directAccept`
    rejects its direct text. -/
def pageRasterOut (n : Nat) (p : PDFPage) : List Nat :=
  match p.extract_text with
  | .error _ => []
  | .ok t => if directAccept t then [] else [n]

/-- Closed form of the table-count increment of one completed loop
    iteration. -/
def pageTableCount (p : PDFPage) : Nat :=
  match p.extract_text with
  | .error _ => 0
  | .ok _ =>
    match p.extract_tables with
    | .error _ => 0
    | .ok tbls => if tbls.isEmpty then 0 else tbls.length

/-- Text fragments appended over a page list. -/
def pagesTexts : List PDFPage → List String
  | [] => []
  | p :: ps => pageTextOut p ++ pagesTexts ps

/-- Method tags appended over a page list whose first page has 0-based
    index `i`. -/
def pagesMethods : Nat → List PDFPage → List String
  | _, [] => []
  | i, p :: ps => pageMethodTags (i + 1) p ++ pagesMethods (i + 1) ps

/-- Rasterization trace over a page list whose first page has 0-based
    index `i`. -/
def pagesRaster : Nat → List PDFPage → List Nat
  | _, [] => []
  | i, p :: ps => pageRasterOut (i + 1) p ++ pagesRaster (i + 1) ps

/-- Table count over a page list. -/
def pagesTables : List PDFPage → Nat
  | [] => 0
  | p :: ps => pageTableCount p + pagesTables ps

/-- The value `page.extract_text()` returns for a page that does not
    raise (`none` models the library returning `None`). -/
def directTextOf (p : PDFPage) : Option String :=
  match p.extract_text with
  | .ok t => t
  | .error _ => none

/-- Effect of one completed loop iteration: when `page.extract_text()`
    returns, `pdfStep` appends exactly the closed-form page outputs and
    leaves the pending-exception field unchanged. -/
theorem pdfStep_ok (n : Nat) (p : PDFPage) (st : PdfSt) (t : Option String)
    (h : p.extract_text = .ok t) :
    pdfStep n p st =
      ⟨st.all_text ++ pageTextOut p, st.methods ++ pageMethodTags n p,
       st.tables + pageTableCount p, st.ocrCalls ++ pageRasterOut n p, st.error⟩ := by
  unfold pdfStep pageTextOut pageMethodTags pageTableCount pageRasterOut
  rw [h]
  by_cases hd : directAccept t
  · simp only [hd, if_true]
    cases ht : p.extract_tables with
    | error e => simp
    | ok tbls =>
      by_cases he : tbls.isEmpty
      · simp [he]
      · simp [he, List.append_assoc]
  · simp only [hd, if_false]
    cases hc : p.convert_from_path with
    | error e2 =>
      cases ht : p.extract_tables with
      | error e => simp
      | ok tbls =>
        by_cases he : tbls.isEmpty
        · simp [he]
        · simp [he, List.append_assoc]
    | ok imgs =>
      cases ht : p.extract_tables with
      | error e => simp
      | ok tbls =>
        by_cases he : tbls.isEmpty
        · simp [he]
        · simp [he, List.append_assoc]

/-- When every page of the list extracts without raising, the loop ends
    without a pending exception and appends exactly the closed-form
    outputs of the pages. -/
theorem pdfLoop_ok (ps : List PDFPage) : ∀ (i : Nat) (st : PdfSt), st.error = none →
    (∀ p ∈ ps, extractTextOk p = true) →
    pdfLoop i ps st =
      ⟨st.all_text ++ pagesTexts ps, st.methods ++ pagesMethods i ps,
       st.tables + pagesTables ps, st.ocrCalls ++ pagesRaster i ps, none⟩ := by
  induction ps with
  | nil =>
    intro i st hst _
    cases st
    simp_all [pdfLoop, pagesTexts, pagesMethods, pagesTables, pagesRaster]
  | cons p ps ih =>
    intro i st hst hall
    have hp : extractTextOk p = true := hall p (by simp)
    obtain ⟨t, ht⟩ : ∃ t, p.extract_text = .ok t := by
      unfold extractTextOk at hp
      cases hpe : p.extract_text with
      | ok t => exact ⟨t, rfl⟩
      | error e => rw [hpe] at hp; simp at hp
    simp only [pdfLoop]
    rw [pdfStep_ok (i + 1) p st t ht]
    simp only [hst]
    rw [ih (i + 1) _ rfl (fun q hq => hall q (by simp [hq]))]
    simp [pagesTexts, pagesMethods, pagesTables, pagesRaster,
      List.append_assoc, Nat.add_assoc]

/-- When the pages before `p` extract without raising and
    `page.extract_text()` raises `e` on `p`, the loop stops at `p` with
    the exception pending, keeping the outputs of the completed pages. -/
theorem pdfLoop_abort (pre : List PDFPage) :
    ∀ (i : Nat) (st : PdfSt) (p : PDFPage) (post : List PDFPage) (e : String),
    st.error = none → (∀ q ∈ pre, extractTextOk q = true) →
    p.extract_text = .error e →
    pdfLoop i (pre ++ p :: post) st =
      ⟨st.all_text ++ pagesTexts pre, st.methods ++ pagesMethods i pre,
       st.tables + pagesTables pre, st.ocrCalls ++ pagesRaster i pre, some e⟩ := by
  induction pre with
  | nil =>
    intro i st p post e hst _ hp
    cases st
    simp only [List.nil_append, pdfLoop, pdfStep, hp]
    simp_all [pagesTexts, pagesMethods, pagesTables, pagesRaster]
  | cons q pre ih =>
    intro i st p post e hst hall hp
    have hq : extractTextOk q = true := hall q (by simp)
    obtain ⟨t, ht⟩ : ∃ t, q.extract_text = .ok t := by
      unfold extractTextOk at hq
      cases hqe : q.extract_text with
      | ok t => exact ⟨t, rfl⟩
      | error e2 => rw [hqe] at hq; simp at hq
    simp only [List.cons_append, pdfLoop]
    rw [pdfStep_ok (i + 1) q st t ht]
    simp only [hst, List.append_eq]
    rw [ih (i + 1) _ p post e rfl (fun r hr => hall r (by simp [hr])) hp]
    simp [pagesTexts, pagesMethods, pagesTables, pagesRaster,
      List.append_assoc, Nat.add_assoc]

/-- The loop ends without a pending exception exactly when every page
    of the list extracts without raising. -/
theorem pdfLoop_error_none_iff (ps : List PDFPage) : ∀ (i : Nat) (st : PdfSt),
    st.error = none →
    ((pdfLoop i ps st).error = none ↔ ∀ p ∈ ps, extractTextOk p = true) := by
  induction ps with
  | nil => intro i st hst; simpa [pdfLoop] using hst
  | cons p ps ih =>
    intro i st hst
    cases hpe : p.extract_text with
    | error e =>
      have hstep : pdfStep (i + 1) p st = { st with error := some e } := by
        unfold pdfStep; rw [hpe]
      simp only [pdfLoop, hstep]
      constructor
      · intro h; simp at h
      · intro h
        have := h p (by simp)
        unfold extractTextOk at this
        rw [hpe] at this
        simp at this
    | ok t =>
      have hp : extractTextOk p = true := by unfold extractTextOk; rw [hpe]
      simp only [pdfLoop]
      rw [pdfStep_ok (i + 1) p st t hpe]
      simp only [hst]
      rw [ih (i + 1) _ rfl]
      simp [hp]

/-- Every page number in the rasterization trace of a page list starting
    at 0-based index `i` is at least `i + 1`. -/
theorem pagesRaster_lb (ps : List PDFPage) : ∀ (i n : Nat),
    n ∈ pagesRaster i ps → i + 1 ≤ n := by
  induction ps with
  | nil => intro i n h; simp [pagesRaster] at h
  | cons p ps ih =>
    intro i n h
    simp only [pagesRaster, List.mem_append] at h
    rcases h with h | h
    · unfold pageRasterOut at h
      rcases hpe : p.extract_text with e | t <;> rw [hpe] at h
      · simp at h
      · by_cases hd : directAccept t
        · simp [hd] at h
        · simp [hd] at h; omega
    · have := ih (i + 1) n h; omega

/-- For a page list whose pages all extract without raising, page
    `j` (0-based, numbered `i + j + 1`) appears in the rasterization
    trace exactly when its direct text fails the acceptance test. -/
theorem pagesRaster_mem_iff (ps : List PDFPage) : ∀ (i j : Nat) (hj : j < ps.length),
    (∀ p ∈ ps, extractTextOk p = true) →
    ((i + j + 1) ∈ pagesRaster i ps ↔
      directAccept (directTextOf (ps.get ⟨j, hj⟩)) = false) := by
  induction ps with
  | nil => intro i j hj; simp at hj
  | cons p ps ih =>
    intro i j hj hall
    match j with
    | 0 =>
      have hp := hall p (by simp)
      obtain ⟨t, ht⟩ : ∃ t, p.extract_text = .ok t := by
        unfold extractTextOk at hp
        cases hpe : p.extract_text with
        | ok t => exact ⟨t, rfl⟩
        | error e => rw [hpe] at hp; simp at hp
      have hdt : directTextOf p = t := by unfold directTextOf; rw [ht]
      have hout : pageRasterOut (i + 1) p =
          if directAccept t then ([] : List Nat) else [i + 1] := by
        unfold pageRasterOut; rw [ht]
      simp only [pagesRaster, List.get, List.mem_append, hdt]
      by_cases hd : directAccept t
      · simp only [hd, if_true] at hout
        rw [hout]
        constructor
        · intro h
          rcases h with h | h
          · simp at h
          · have := pagesRaster_lb ps (i + 1) (i + 0 + 1) h; omega
        · intro h; rw [hd] at h; simp at h
      · simp only [hd, if_false] at hout
        rw [hout]
        constructor
        · intro _; simp [hd]
        · intro _; left; simp
    | j + 1 =>
      have hj2 : j < ps.length := by simpa using hj
      have hall2 : ∀ q ∈ ps, extractTextOk q = true := fun q hq => hall q (by simp [hq])
      have heq : (i + 1) + j + 1 = i + (j + 1) + 1 := by omega
      have hih := ih (i + 1) j hj2 hall2
      rw [heq] at hih
      simp only [pagesRaster, List.get, List.mem_append]
      rw [← hih]
      constructor
      · intro h
        rcases h with h | h
        · exfalso
          unfold pageRasterOut at h
          rcases hpe : p.extract_text with e | t <;> rw [hpe] at h
          · simp at h
          · by_cases hd : directAccept t
            · simp [hd] at h
            · simp [hd] at h
        · exact h
      · intro h; right; exact h

/-- Resolution of the TXT encoding loop: utf-8 wins when the bytes are
    valid utf-8, otherwise latin-1 wins because latin-1 decoding is
    total; the loop never exhausts the candidate list. -/
theorem txtTryEncodings_resolves (bs : List Byte) :
    (∀ cs, utf8Decode bs = some cs →
      txtTryEncodings bs encodingCandidates =
        some ("utf-8", String.mk (univNewlines cs))) ∧
    (utf8Decode bs = none →
      txtTryEncodings bs encodingCandidates =
        some ("latin-1", String.mk (univNewlines (latin1Decode bs)))) := by
  constructor
  · intro cs hu
    simp [txtTryEncodings, encodingCandidates, pyReadText, decodeWith, hu]
  · intro hu
    simp [txtTryEncodings, encodingCandidates, pyReadText, decodeWith, hu]

/-- Resolution of the CSV encoding loop: because latin-1 decoding is
    total, the loop reduces to trying utf-8 and then latin-1; the
    for-else ValueError branch is unreachable and cp1252 never wins. -/
theorem csvTryEncodings_resolves (bs : List Byte)
    (parse : String → Except String DataFrame) :
    csvTryEncodings bs parse encodingCandidates =
      (match utf8Decode bs with
       | some cs =>
         (match parse (String.mk cs) with
          | .ok df => .ok ("utf-8", df)
          | .error e => .error e)
       | none =>
         (match parse (String.mk (latin1Decode bs)) with
          | .ok df => .ok ("latin-1", df)
          | .error e => .error e)) := by
  cases hu : utf8Decode bs with
  | none =>
    cases hp : parse (String.mk (latin1Decode bs)) <;>
      simp [csvTryEncodings, encodingCandidates, decodeWith, hu, hp]
  | some cs =>
    cases hp : parse (String.mk cs) <;>
      simp [csvTryEncodings, encodingCandidates, decodeWith, hu, hp]

/-- C10: for every file path that does not end in ".dxf"
    (case-insensitively), CADExtractor.extract returns without consulting
    `ezdxf.readfile` at all (the conclusion holds for every readfile
    outcome): text is empty, metadata has no error, entity counts are 0
    and the layer list is empty — supportability is decided by file-name
    extension alone. -/
theorem cad_skips_non_dxf_extension (filepath : String) (readfile : Except String DXFDoc)
    (h : pyEndsWith (pyLower filepath) ".dxf" = false) :
    CADExtractor.extract ⟨filepath, readfile⟩ = ⟨"", ⟨0, 0, [], none⟩⟩ := by
  unfold CADExtractor.extract
  simp [h]

/-- Witness for C10 at a concrete legacy-binary path: the extension test
    fails and the skip result is returned. -/
theorem cad_skips_non_dxf_extension_w :
    (pyEndsWith (pyLower "site_plan.dwg") ".dxf") = false ∧
    CADExtractor.extract ⟨"site_plan.dwg", .error "DWG format is not supported"⟩ =
      ⟨"", ⟨0, 0, [], none⟩⟩ :=
  ⟨by decide, cad_skips_non_dxf_extension "site_plan.dwg" (.error "DWG format is not supported")
    (by decide)⟩

/-- C4 (code behavior at the failing input): calling CADExtractor.extract
    on a legacy binary DWG file path never reaches the except branch —
    the ".dxf" extension guard skips parsing — so the result has empty
    text and no metadata.error, not the documented placeholder with an
    error that the claim (and the comment in the source except branch)
    describes. -/
theorem cad_dwg_no_placeholder_no_error :
    (CADExtractor.extract ⟨"drawing.dwg", .error "Not a DXF file"⟩).text = "" ∧
    (CADExtractor.extract ⟨"drawing.dwg", .error "Not a DXF file"⟩).metadata.error = none ∧
    (CADExtractor.extract ⟨"drawing.dwg", .error "Not a DXF file"⟩).text ≠
      "CAD file detected: drawing.dwg" := by
  refine ⟨?_, ?_, ?_⟩ <;> decide

/-- C9: the factory fails on every unregistered tag with a message naming
    the tag, returns the registered class for every registered tag, and
    the DOC, DWG and XLSX aliases resolve to the same classes as DOCX,
    DXF and CSV respectively. -/
theorem factory_unknown_fails_aliases_shared :
    (∀ t : String, ExtractorFactory.extractors.lookup t = none →
      ExtractorFactory.get_extractor t =
        .error s!"No extractor available for file type: {t}") ∧
    (∀ (t : String) (c : ExtractorClass),
      ExtractorFactory.extractors.lookup t = some c →
      ExtractorFactory.get_extractor t = .ok c) ∧
    ExtractorFactory.get_extractor "DOC" = ExtractorFactory.get_extractor "DOCX" ∧
    ExtractorFactory.get_extractor "DWG" = ExtractorFactory.get_extractor "DXF" ∧
    ExtractorFactory.get_extractor "XLSX" = ExtractorFactory.get_extractor "CSV" := by
  refine ⟨?_, ?_, by rfl, by rfl, by rfl⟩
  · intro t h
    unfold ExtractorFactory.get_extractor
    rw [h]
  · intro t c h
    unfold ExtractorFactory.get_extractor
    rw [h]

/-- Witness for C9 at the concrete unregistered tag PNG and the concrete
    registered tag PDF. -/
theorem factory_unknown_fails_aliases_shared_w :
    ExtractorFactory.extractors.lookup "PNG" = none ∧
    ExtractorFactory.get_extractor "PNG" =
      .error "No extractor available for file type: PNG" ∧
    ExtractorFactory.extractors.lookup "PDF" = some .PDFExtractor ∧
    ExtractorFactory.get_extractor "PDF" = .ok .PDFExtractor :=
  ⟨by decide,
   factory_unknown_fails_aliases_shared.1 "PNG" (by decide),
   by decide,
   factory_unknown_fails_aliases_shared.2.1 "PDF" .PDFExtractor (by decide)⟩

/-- C5 (amended): any ImageExtractor failure sets metadata.error and
    leaves text empty; image_size is null exactly when the failure is at
    Image.open (corrupt image, unsupported codec), while an OCR failure
    after a successful open keeps the already-recorded dimensions. -/
theorem image_failure_error_text_size (env : ImageEnv) :
    (∀ e, env.openImage = .error e →
      ImageExtractor.extract env = ⟨"", ⟨"tesseract", none, some e⟩⟩) ∧
    (∀ img e, env.openImage = .ok img → env.ocr = .error e →
      ImageExtractor.extract env = ⟨"", ⟨"tesseract", some img.size, some e⟩⟩) := by
  constructor
  · intro e h
    unfold ImageExtractor.extract
    rw [h]
  · intro img e h1 h2
    unfold ImageExtractor.extract
    rw [h1, h2]

/-- Witness for the amended C5 at concrete environments for both failure
    shapes. -/
theorem image_failure_error_text_size_w :
    ImageExtractor.extract ⟨.error "cannot identify image file", .ok "unused"⟩ =
      ⟨"", ⟨"tesseract", none, some "cannot identify image file"⟩⟩ ∧
    ImageExtractor.extract ⟨.ok ⟨(800, 600)⟩, .error "tesseract is not installed"⟩ =
      ⟨"", ⟨"tesseract", some (800, 600), some "tesseract is not installed"⟩⟩ :=
  ⟨(image_failure_error_text_size ⟨.error "cannot identify image file", .ok "unused"⟩).1
      "cannot identify image file" rfl,
   (image_failure_error_text_size ⟨.ok ⟨(800, 600)⟩, .error "tesseract is not installed"⟩).2
      ⟨(800, 600)⟩ "tesseract is not installed" rfl rfl⟩

/-- C5 counterexample to the claim as stated: an OCR failure is a
    failure of the Image strategy, metadata.error is set and text is
    empty, yet metadata.image_size is not null — it keeps the dimensions
    recorded before OCR ran. -/
theorem image_ocr_failure_keeps_size_cex :
    (ImageExtractor.extract ⟨.ok ⟨(1024, 768)⟩, .error "OCR engine crashed"⟩).metadata.error =
      some "OCR engine crashed" ∧
    (ImageExtractor.extract ⟨.ok ⟨(1024, 768)⟩, .error "OCR engine crashed"⟩).text = "" ∧
    (ImageExtractor.extract ⟨.ok ⟨(1024, 768)⟩, .error "OCR engine crashed"⟩).metadata.image_size ≠
      none := by
  refine ⟨?_, ?_, ?_⟩ <;> decide

/-- C1: every strategy is a total function into a result whose metadata
    and text fields always exist (metadata present and non-null, text a
    string, by the result types), and metadata.error is the sole channel
    for failures: for each of the six strategies, metadata.error is
    absent exactly when no uncaught internal failure occurred, so every
    internal failure is recorded there instead of propagating (the
    narrow-scope catches — per-page OCR and table failures in the PDF
    strategy — leave error absent). -/
theorem extract_total_failures_recorded :
    (∀ env : PDFEnv, ((PDFExtractor.extract env).result.metadata.error = none ↔
        ∃ doc, env.openDoc = .ok doc ∧ ∀ p ∈ doc.pages, extractTextOk p = true)) ∧
    (∀ env : ImageEnv, ((ImageExtractor.extract env).metadata.error = none ↔
        (∃ img, env.openImage = .ok img) ∧ ∃ t, env.ocr = .ok t)) ∧
    (∀ od : Except String DOCXDoc, ((DOCXExtractor.extract od).metadata.error = none ↔
        ∃ doc, od = .ok doc)) ∧
    (∀ env : CADEnv, ((CADExtractor.extract env).metadata.error = none ↔
        (pyEndsWith (pyLower env.filepath) ".dxf" = false ∨
          ∃ doc, env.readfile = .ok doc))) ∧
    (∀ env : CSVEnv, ((CSVExtractor.extract env).metadata.error = none ↔
        env.openError = none ∧
          ∃ enc df, csvTryEncodings env.bytes env.parse encodingCandidates = .ok (enc, df))) ∧
    (∀ env : TXTEnv, ((TXTExtractor.extract env).metadata.error = none ↔
        env.openError = none)) := by
  refine ⟨?_, ?_, ?_, ?_, ?_, ?_⟩
  · intro env
    cases hod : env.openDoc with
    | error e => simp [PDFExtractor.extract, hod]
    | ok doc =>
      have hiff := pdfLoop_error_none_iff doc.pages 0 ⟨[], [], 0, [], none⟩ rfl
      simp only [PDFExtractor.extract, hod]
      cases hst : (pdfLoop 0 doc.pages ⟨[], [], 0, [], none⟩).error with
      | some e =>
        rw [hst] at hiff
        simp only [hst]
        constructor
        · intro h; simp at h
        · rintro ⟨doc2, hdoc2, hall⟩
          injection hdoc2 with hdd
          subst hdd
          have := hiff.mpr hall
          exact Option.noConfusion this
      | none =>
        rw [hst] at hiff
        simp only [hst]
        constructor
        · intro _; exact ⟨doc, rfl, hiff.mp rfl⟩
        · intro _; trivial
  · intro env
    cases h1 : env.openImage with
    | error e => simp [ImageExtractor.extract, h1]
    | ok img =>
      cases h2 : env.ocr with
      | error e => simp [ImageExtractor.extract, h1, h2]
      | ok t => simp [ImageExtractor.extract, h1, h2]
  · intro od
    cases od with
    | error e => simp [DOCXExtractor.extract]
    | ok doc => simp [DOCXExtractor.extract]
  · intro env
    by_cases hx : pyEndsWith (pyLower env.filepath) ".dxf"
    · cases hr : env.readfile with
      | error e => simp [CADExtractor.extract, hx, hr]
      | ok doc => simp [CADExtractor.extract, hx, hr]
    · simp [CADExtractor.extract, hx]
  · intro env
    cases ho : env.openError with
    | some e => simp [CSVExtractor.extract, ho]
    | none =>
      cases hc : csvTryEncodings env.bytes env.parse encodingCandidates with
      | error e => simp [CSVExtractor.extract, ho, hc]
      | ok p =>
        obtain ⟨enc, df⟩ := p
        simp [CSVExtractor.extract, ho, hc]
  · intro env
    cases ho : env.openError with
    | some e => simp [TXTExtractor.extract, ho]
    | none =>
      cases hu : utf8Decode env.bytes with
      | none =>
        have := (txtTryEncodings_resolves env.bytes).2 hu
        simp [TXTExtractor.extract, ho, this]
      | some cs =>
        have := (txtTryEncodings_resolves env.bytes).1 cs hu
        simp [TXTExtractor.extract, ho, this]

/-- C2: when the document opens and every page's `extract_text` returns,
    the extraction_method list is exactly the per-page closed form — one
    "page_N_direct" tag exactly for the pages whose direct text passes
    `len(text.strip()) > 30` (and text is present), and OCR tags
    otherwise — and the rasterization trace is exactly the pages whose
    direct text fails the test; page i+1 is rasterized (per-page
    `convert_from_path(first_page=i+1, last_page=i+1)`) iff its direct
    text is absent or its trimmed length is at most 30. -/
theorem pdf_direct_tag_iff_over_threshold (env : PDFEnv) (doc : PDFDoc)
    (h1 : env.openDoc = .ok doc)
    (h2 : ∀ p ∈ doc.pages, extractTextOk p = true) :
    (PDFExtractor.extract env).result.metadata.extraction_method = pagesMethods 0 doc.pages ∧
    (PDFExtractor.extract env).rasterized = pagesRaster 0 doc.pages ∧
    (∀ (i : Nat) (hi : i < doc.pages.length),
      ((i + 1) ∈ (PDFExtractor.extract env).rasterized ↔
        directAccept (directTextOf (doc.pages.get ⟨i, hi⟩)) = false)) := by
  have hloop := pdfLoop_ok doc.pages 0 ⟨[], [], 0, [], none⟩ rfl h2
  have hres : PDFExtractor.extract env =
      ⟨⟨String.intercalate "\n\n" (pagesTexts doc.pages),
        ⟨doc.pages.length, pagesMethods 0 doc.pages, pagesTables doc.pages, none⟩⟩,
       pagesRaster 0 doc.pages⟩ := by
    simp [PDFExtractor.extract, h1, hloop]
  rw [hres]
  refine ⟨rfl, rfl, ?_⟩
  intro i hi
  have := pagesRaster_mem_iff doc.pages 0 i hi h2
  simpa using this

/-- Witness for C2: a two-page document whose first page has 60
    characters of direct text (tagged direct, not rasterized) and whose
    second page has 4 characters (never tagged direct, rasterized and
    OCR-tagged). -/
theorem pdf_direct_tag_iff_over_threshold_w :
    (∀ p ∈ ([⟨.ok (some "This first page carries well over thirty characters of text."),
               .error "unused", .ok []⟩,
             ⟨.ok (some "Scan"), .ok [.ok "OCR recovered text"], .ok []⟩] : List PDFPage),
       extractTextOk p = true) ∧
    (PDFExtractor.extract ⟨.ok ⟨[⟨.ok (some "This first page carries well over thirty characters of text."),
        .error "unused", .ok []⟩,
      ⟨.ok (some "Scan"), .ok [.ok "OCR recovered text"], .ok []⟩]⟩⟩).result.metadata.extraction_method =
      ["page_1_direct", "page_2_ocr"] ∧
    (PDFExtractor.extract ⟨.ok ⟨[⟨.ok (some "This first page carries well over thirty characters of text."),
        .error "unused", .ok []⟩,
      ⟨.ok (some "Scan"), .ok [.ok "OCR recovered text"], .ok []⟩]⟩⟩).rasterized = [2] := by
  have h := pdf_direct_tag_iff_over_threshold
    ⟨.ok ⟨[⟨.ok (some "This first page carries well over thirty characters of text."),
        .error "unused", .ok []⟩,
      ⟨.ok (some "Scan"), .ok [.ok "OCR recovered text"], .ok []⟩]⟩⟩
    ⟨[⟨.ok (some "This first page carries well over thirty characters of text."),
        .error "unused", .ok []⟩,
      ⟨.ok (some "Scan"), .ok [.ok "OCR recovered text"], .ok []⟩]⟩
    rfl (by decide)
  exact ⟨by decide, h.1.trans (by decide), h.2.1.trans (by decide)⟩

/-- C3 (amended): when metadata.error is set, the metadata fields that
    were written into the result before the failure point are retained —
    for a PDF failing on a page after `k` successful pages, the page
    count and the extraction_method tags of pages 1..k survive; for an
    Image OCR failure, image_size survives — but the PDF text collected
    in the local buffer before the failing page is discarded: `text` is
    only assigned after the loop, so it stays empty. -/
theorem error_keeps_written_metadata :
    (∀ (env : PDFEnv) (doc : PDFDoc) (pre : List PDFPage) (p : PDFPage)
        (post : List PDFPage) (e : String),
      env.openDoc = .ok doc → doc.pages = pre ++ p :: post →
      (∀ q ∈ pre, extractTextOk q = true) → p.extract_text = .error e →
      (PDFExtractor.extract env).result =
        ⟨"", ⟨doc.pages.length, pagesMethods 0 pre, 0, some e⟩⟩) ∧
    (∀ (env : ImageEnv) (img : PILImage) (e : String),
      env.openImage = .ok img → env.ocr = .error e →
      ImageExtractor.extract env = ⟨"", ⟨"tesseract", some img.size, some e⟩⟩) := by
  constructor
  · intro env doc pre p post e h1 hsplit hpre hp
    have habort := pdfLoop_abort pre 0 ⟨[], [], 0, [], none⟩ p post e rfl hpre hp
    simp [PDFExtractor.extract, h1, hsplit, habort]
  · intro env img e h1 h2
    unfold ImageExtractor.extract
    rw [h1, h2]

/-- Witness for the amended C3: page 1 extracts 57 characters directly,
    page 2 raises; the page count (2), the page-1 direct tag and the
    error survive, the text does not.  The Image clause is witnessed at
    a concrete environment as well. -/
theorem error_keeps_written_metadata_w :
    (PDFExtractor.extract ⟨.ok ⟨[⟨.ok (some "The first page text is long enough to pass the threshold."),
        .error "unused", .ok []⟩,
      ⟨.error "EOF marker not found", .error "unused", .ok []⟩]⟩⟩).result =
      ⟨"", ⟨2, ["page_1_direct"], 0, some "EOF marker not found"⟩⟩ ∧
    ImageExtractor.extract ⟨.ok ⟨(640, 480)⟩, .error "image too large for OCR"⟩ =
      ⟨"", ⟨"tesseract", some (640, 480), some "image too large for OCR"⟩⟩ := by
  constructor
  · have h := error_keeps_written_metadata.1
      ⟨.ok ⟨[⟨.ok (some "The first page text is long enough to pass the threshold."),
          .error "unused", .ok []⟩,
        ⟨.error "EOF marker not found", .error "unused", .ok []⟩]⟩⟩
      ⟨[⟨.ok (some "The first page text is long enough to pass the threshold."),
          .error "unused", .ok []⟩,
        ⟨.error "EOF marker not found", .error "unused", .ok []⟩]⟩
      [⟨.ok (some "The first page text is long enough to pass the threshold."),
          .error "unused", .ok []⟩]
      ⟨.error "EOF marker not found", .error "unused", .ok []⟩
      [] "EOF marker not found" rfl rfl (by decide) rfl
    exact h.trans (by decide)
  · exact error_keeps_written_metadata.2
      ⟨.ok ⟨(640, 480)⟩, .error "image too large for OCR"⟩
      ⟨(640, 480)⟩ "image too large for OCR" rfl rfl

/-- C3 counterexample to the claim as stated: page 1 succeeded (its
    direct tag is in extraction_method) and a later page failed, yet the
    returned text is empty — the already-extracted page-1 text is not
    contained in it. -/
theorem pdf_midfailure_drops_text_cex :
    (PDFExtractor.extract ⟨.ok ⟨[⟨.ok (some "Page one holds significantly more than thirty characters here."),
        .error "no rasterizer", .ok []⟩,
      ⟨.error "bad page object", .error "no rasterizer", .ok []⟩]⟩⟩).result.metadata.error =
      some "bad page object" ∧
    (PDFExtractor.extract ⟨.ok ⟨[⟨.ok (some "Page one holds significantly more than thirty characters here."),
        .error "no rasterizer", .ok []⟩,
      ⟨.error "bad page object", .error "no rasterizer", .ok []⟩]⟩⟩).result.metadata.extraction_method =
      ["page_1_direct"] ∧
    (PDFExtractor.extract ⟨.ok ⟨[⟨.ok (some "Page one holds significantly more than thirty characters here."),
        .error "no rasterizer", .ok []⟩,
      ⟨.error "bad page object", .error "no rasterizer", .ok []⟩]⟩⟩).result.text = "" := by
  refine ⟨?_, ?_, ?_⟩ <;> decide

/-- C8: every plain-text file whose open succeeds decodes (latin-1 never
    fails), the full decoded content becomes `text` verbatim, and
    metadata.lines is the length of the list obtained by splitting the
    text on the newline character — so a trailing newline contributes a
    counted empty segment. -/
theorem txt_verbatim_and_split_line_count (env : TXTEnv) (h : env.openError = none) :
    ∃ enc s, txtTryEncodings env.bytes encodingCandidates = some (enc, s) ∧
      TXTExtractor.extract env = ⟨s, ⟨enc, (pySplit '\n' s).length, none⟩⟩ := by
  cases hu : utf8Decode env.bytes with
  | some cs =>
    refine ⟨"utf-8", String.mk (univNewlines cs),
      (txtTryEncodings_resolves env.bytes).1 cs hu, ?_⟩
    unfold TXTExtractor.extract
    rw [h, (txtTryEncodings_resolves env.bytes).1 cs hu]
  | none =>
    refine ⟨"latin-1", String.mk (univNewlines (latin1Decode env.bytes)),
      (txtTryEncodings_resolves env.bytes).2 hu, ?_⟩
    unfold TXTExtractor.extract
    rw [h, (txtTryEncodings_resolves env.bytes).2 hu]

/-- Witness for C8: the file "ab\n" yields text "ab\n" with 2 counted
    lines (the trailing empty segment), while "ab" yields 1. -/
theorem txt_verbatim_and_split_line_count_w :
    (⟨none, [0x61, 0x62, 0x0A]⟩ : TXTEnv).openError = none ∧
    (∃ enc s, txtTryEncodings [0x61, 0x62, 0x0A] encodingCandidates = some (enc, s) ∧
      TXTExtractor.extract ⟨none, [0x61, 0x62, 0x0A]⟩ =
        ⟨s, ⟨enc, (pySplit '\n' s).length, none⟩⟩) ∧
    (TXTExtractor.extract ⟨none, [0x61, 0x62, 0x0A]⟩).text = "ab\n" ∧
    (TXTExtractor.extract ⟨none, [0x61, 0x62, 0x0A]⟩).metadata.lines = 2 ∧
    (TXTExtractor.extract ⟨none, [0x61, 0x62]⟩).metadata.lines = 1 :=
  ⟨rfl, txt_verbatim_and_split_line_count ⟨none, [0x61, 0x62, 0x0A]⟩ rfl,
   by decide, by decide, by decide⟩

/-- C6 (amended): both text strategies try utf-8, then latin-1, then
    cp1252, and record and use the first success — but latin-1 decoding
    is total, so the resolved encoding is utf-8 exactly when the bytes
    are valid utf-8 and latin-1 otherwise: cp1252 is never recorded, the
    every-candidate-fails error branch is unreachable, and a
    Windows-1252 file that is not valid utf-8 is decoded as latin-1
    (so its 0x80..0x9F bytes do not round-trip). -/
theorem encoding_priority_first_success :
    (∀ (bs : List Byte) (cs : List Char), utf8Decode bs = some cs →
      (TXTExtractor.extract ⟨none, bs⟩).metadata.encoding = "utf-8" ∧
      (TXTExtractor.extract ⟨none, bs⟩).text = String.mk (univNewlines cs)) ∧
    (∀ bs : List Byte, utf8Decode bs = none →
      (TXTExtractor.extract ⟨none, bs⟩).metadata.encoding = "latin-1" ∧
      (TXTExtractor.extract ⟨none, bs⟩).text =
        String.mk (univNewlines (latin1Decode bs))) ∧
    (∀ bs : List Byte, (TXTExtractor.extract ⟨none, bs⟩).metadata.encoding ≠ "cp1252") ∧
    (∀ bs : List Byte, txtTryEncodings bs encodingCandidates ≠ none) ∧
    (∀ (bs : List Byte) (parse : String → Except String DataFrame)
        (enc : String) (df : DataFrame),
      csvTryEncodings bs parse encodingCandidates = .ok (enc, df) →
      (CSVExtractor.extract ⟨none, bs, parse⟩).metadata.encoding = enc ∧
      (enc = "utf-8" ∨ enc = "latin-1")) := by
  refine ⟨?_, ?_, ?_, ?_, ?_⟩
  · intro bs cs hu
    have hr := (txtTryEncodings_resolves bs).1 cs hu
    constructor <;> · unfold TXTExtractor.extract; rw [hr]
  · intro bs hu
    have hr := (txtTryEncodings_resolves bs).2 hu
    constructor <;> · unfold TXTExtractor.extract; rw [hr]
  · intro bs
    cases hu : utf8Decode bs with
    | some cs =>
      have h1 := ((txtTryEncodings_resolves bs).1 cs hu)
      have h2 : (TXTExtractor.extract ⟨none, bs⟩).metadata.encoding = "utf-8" := by
        unfold TXTExtractor.extract
        rw [h1]
      rw [h2]
      decide
    | none =>
      have h1 := ((txtTryEncodings_resolves bs).2 hu)
      have h2 : (TXTExtractor.extract ⟨none, bs⟩).metadata.encoding = "latin-1" := by
        unfold TXTExtractor.extract
        rw [h1]
      rw [h2]
      decide
  · intro bs
    cases hu : utf8Decode bs with
    | some cs => rw [(txtTryEncodings_resolves bs).1 cs hu]; simp
    | none => rw [(txtTryEncodings_resolves bs).2 hu]; simp
  · intro bs parse enc df h
    constructor
    · unfold CSVExtractor.extract
      rw [show csvTryEncodings (⟨none, bs, parse⟩ : CSVEnv).bytes
            (⟨none, bs, parse⟩ : CSVEnv).parse encodingCandidates =
          .ok (enc, df) from h]
    · rw [csvTryEncodings_resolves bs parse] at h
      cases hu : utf8Decode bs with
      | some cs =>
        simp only [hu] at h
        cases hp : parse (String.mk cs) with
        | ok df2 =>
          simp only [hp] at h
          simp at h
          left
          exact h.1.symm
        | error e => simp only [hp] at h; exact Except.noConfusion h
      | none =>
        simp only [hu] at h
        cases hp : parse (String.mk (latin1Decode bs)) with
        | ok df2 =>
          simp only [hp] at h
          simp at h
          right
          exact h.1.symm
        | error e => simp only [hp] at h; exact Except.noConfusion h

/-- Witness for the amended C6: valid utf-8 bytes resolve to utf-8; a
    byte that is not valid utf-8 resolves to latin-1. -/
theorem encoding_priority_first_success_w :
    utf8Decode [0x68, 0x69] = some ['h', 'i'] ∧
    (TXTExtractor.extract ⟨none, [0x68, 0x69]⟩).metadata.encoding = "utf-8" ∧
    utf8Decode [0xFF] = none ∧
    (TXTExtractor.extract ⟨none, [0xFF]⟩).metadata.encoding = "latin-1" :=
  ⟨by decide,
   (encoding_priority_first_success.1 [0x68, 0x69] ['h', 'i'] (by decide)).1,
   by decide,
   (encoding_priority_first_success.2.1 [0xFF] (by decide)).1⟩

/-- C6 counterexample to the claim as stated: the bytes 0x93 0x61 are a
    decodable Windows-1252 file (they decode to a left double quotation
    mark and the letter a), yet the resolved encoding is latin-1, not
    cp1252, and the decoded text does not round-trip the cp1252
    content. -/
theorem cp1252_never_resolved_cex :
    cp1252Decode [0x93, 0x61] = some ['“', 'a'] ∧
    (TXTExtractor.extract ⟨none, [0x93, 0x61]⟩).metadata.encoding = "latin-1" ∧
    (TXTExtractor.extract ⟨none, [0x93, 0x61]⟩).metadata.encoding ≠ "cp1252" ∧
    (TXTExtractor.extract ⟨none, [0x93, 0x61]⟩).text ≠ String.mk ['“', 'a'] := by
  refine ⟨?_, ?_, ?_, ?_⟩ <;> decide

/-- C7: for every successfully parsed CSV input the rendered text is the
    fixed four-part summary — a header stating row and column counts, a
    line listing the column names, the preview marker and the rendering
    of `df.head(10)` — the preview holds at most 10 data rows, and
    metadata.rows / metadata.columns carry the full counts. -/
theorem csv_summary_and_bounded_preview (env : CSVEnv) (enc : String) (df : DataFrame)
    (h0 : env.openError = none)
    (h : csvTryEncodings env.bytes env.parse encodingCandidates = .ok (enc, df)) :
    (CSVExtractor.extract env).metadata.rows = df.rows.length ∧
    (CSVExtractor.extract env).metadata.columns = df.columns.length ∧
    (CSVExtractor.extract env).text = String.intercalate "\n\n"
      [s!"CSV Table with {df.rows.length} rows and {df.columns.length} columns:",
       "Columns: " ++ String.intercalate ", " df.columns,
       "Data preview:",
       dfToString (dfHead df 10)] ∧
    (dfHead df 10).rows.length ≤ 10 := by
  have hres : CSVExtractor.extract env =
      ⟨String.intercalate "\n\n"
        [s!"CSV Table with {df.rows.length} rows and {df.columns.length} columns:",
         "Columns: " ++ String.intercalate ", " df.columns,
         "Data preview:",
         dfToString (dfHead df 10)],
       ⟨df.rows.length, df.columns.length, enc, none⟩⟩ := by
    unfold CSVExtractor.extract
    rw [h0, h]
  rw [hres]
  refine ⟨rfl, rfl, rfl, ?_⟩
  simp only [dfHead, List.length_take]
  exact Nat.min_le_left _ _

/-- Witness for C7: an input parsed into 10000 rows yields
    metadata.rows = 10000 while the preview holds at most 10 rows. -/
theorem csv_summary_and_bounded_preview_w :
    csvTryEncodings [] (fun _ => .ok ⟨["a"], List.replicate 10000 ["x"]⟩) encodingCandidates =
      .ok ("utf-8", ⟨["a"], List.replicate 10000 ["x"]⟩) ∧
    (CSVExtractor.extract
      ⟨none, [], fun _ => .ok ⟨["a"], List.replicate 10000 ["x"]⟩⟩).metadata.rows = 10000 ∧
    (dfHead ⟨["a"], List.replicate 10000 ["x"]⟩ 10).rows.length ≤ 10 := by
  have h := csv_summary_and_bounded_preview
    ⟨none, [], fun _ => .ok ⟨["a"], List.replicate 10000 ["x"]⟩⟩
    "utf-8" ⟨["a"], List.replicate 10000 ["x"]⟩ rfl rfl
  refine ⟨rfl, ?_, h.2.2.2⟩
  rw [h.1]
  exact List.length_replicate 10000 ["x"]
